import Mathlib

/-!
Verification of the SDL demo program (`src/main.cpp`) against its
natural-language specification.  The program is embedded shallowly:
the pure control logic of `main` (the event/update loop, the clip table,
the blit helper `renderTexture`, the music-toggle branch and the
initialization / teardown control flow) is translated into executable
Lean definitions, and the spec's claims are proved or refuted about them.
External SDL library calls are modelled as entries of an action trace.
-/

namespace SDLGame

/-- Screen width in pixels, `const int SCREEN_WIDTH = 244 * 3;` (main.cpp:11). -/
def SCREEN_WIDTH : Int := 244 * 3

/-- Screen height in pixels, `const int SCREEN_HEIGHT = 288 * 3;` (main.cpp:12). -/
def SCREEN_HEIGHT : Int := 288 * 3

/-- Horizontal speed, `const int xVel = 10;` (main.cpp:17). -/
def xVel : Int := 10

/-- Vertical speed, `const int yVel = 10;` (main.cpp:18). -/
def yVel : Int := 10

/-- Clip width `iW = 100` (main.cpp:227). -/
def iW : Int := 100

/-- Clip height `iH = 100` (main.cpp:227). -/
def iH : Int := 100

/-- The keys distinguished by the `switch` on `e.key.keysym.sym`
(main.cpp:261-327); `other` stands for every key that falls into the
`default` branch. -/
inductive Key
  | k1 | kp1 | k2 | kp2 | k3 | kp3 | k4 | kp4
  | up | w | down | s | left | a | right | d
  | m | q | escape
  | other
deriving DecidableEq, Repr

/-- The events distinguished by the drain loop (main.cpp:256-329):
`SDL_QUIT`, `SDL_KEYDOWN` with a key, or any other event type. -/
inductive Event
  | quitEv
  | keyDown (k : Key)
  | otherEv
deriving DecidableEq, Repr

/-- The three observable states of the mixer's single music channel
(spec `3`: playing / paused / stopped). -/
inductive MusicState
  | stopped
  | playing
  | paused
deriving DecidableEq, Repr

/-- The resource handles acquired by `main`: window, renderer, font,
text texture, image texture, music. -/
inductive Res
  | window | renderer | font | text | image | music
deriving DecidableEq, Repr, Fintype

/-- The four library subsystems: core SDL, SDL_mixer, SDL_image, SDL_ttf. -/
inductive Subsys
  | sdl | mix | img | ttf
deriving DecidableEq, Repr

/-- The external library calls `main` performs, recorded as a trace. -/
inductive Act
  | subsysInit (u : Subsys)
  | subsysQuit (u : Subsys)
  | acquire (r : Res)
  | release (r : Res)
  | playMusic (loops : Int)
  | pauseMusic
  | resumeMusic
  | haltMusic
  | renderClear
  | blitSprite
  | blitText
  | present
deriving DecidableEq, Repr

/-- Modelled semantics of the library query `Mix_PlayingMusic()`
(SDL_mixer collaborator, external to the repo): returns nonzero while
music has been started and not halted; it does not check the
pause state, so it also returns 1 for paused music. -/
def Mix_PlayingMusic (ms : MusicState) : Int :=
  match ms with
  | .stopped => 0
  | .playing => 1
  | .paused => 1

/-- Modelled semantics of the library query `Mix_PausedMusic()`
(SDL_mixer collaborator, external to the repo): returns 1 exactly when
the music channel is paused. -/
def Mix_PausedMusic (ms : MusicState) : Int :=
  match ms with
  | .stopped => 0
  | .playing => 0
  | .paused => 1

/-- The `SDLK_m` branch of the event switch (main.cpp:309-319):
if `Mix_PlayingMusic() == 0` start the song with `Mix_PlayMusic(song, -1)`;
else if `Mix_PausedMusic() == 1` resume; else pause.  Returns the
resulting music state together with the library call performed. -/
def handleM (ms : MusicState) : MusicState × Act :=
  if Mix_PlayingMusic ms = 0 then
    (.playing, .playMusic (-1))
  else
    if Mix_PausedMusic ms = 1 then
      (.playing, .resumeMusic)
    else
      (.paused, .pauseMusic)

/-- The mutable state of the event loop: sprite position `iX`/`iY`
(main.cpp:228-229), clip index `useClip` (main.cpp:242), the `quit`
flag (main.cpp:254) and the mixer's music state. -/
structure GameState where
  iX : Int
  iY : Int
  useClip : Nat
  quit : Bool
  music : MusicState
deriving DecidableEq, Repr

/-- Processing of one polled event, the body of the inner
`while (SDL_PollEvent(&e))` loop (main.cpp:256-329).  Returns the
updated state and the music library calls performed. -/
def stepEvent (st : GameState) (e : Event) : GameState × List Act :=
  match e with
  | .quitEv => ({ st with quit := true }, [])
  | .otherEv => (st, [])
  | .keyDown k =>
    match k with
    | .k1 | .kp1 => ({ st with useClip := 0 }, [])
    | .k2 | .kp2 => ({ st with useClip := 1 }, [])
    | .k3 | .kp3 => ({ st with useClip := 2 }, [])
    | .k4 | .kp4 => ({ st with useClip := 3 }, [])
    | .up | .w =>
        let y1 := if st.iY ≥ 0 then st.iY - yVel else st.iY
        let y2 := if y1 < 0 then 0 else y1
        ({ st with iY := y2 }, [])
    | .down | .s =>
        let y1 := if st.iY + iH ≤ SCREEN_HEIGHT then st.iY + yVel else st.iY
        let y2 := if y1 + iH > SCREEN_HEIGHT then SCREEN_HEIGHT - iH else y1
        ({ st with iY := y2 }, [])
    | .left | .a =>
        let x1 := if st.iX ≥ 0 then st.iX - xVel else st.iX
        let x2 := if x1 < 0 then 0 else x1
        ({ st with iX := x2 }, [])
    | .right | .d =>
        let x1 := if st.iX + iW ≤ SCREEN_WIDTH then st.iX + xVel else st.iX
        let x2 := if x1 + iW > SCREEN_WIDTH then SCREEN_WIDTH - iW else x1
        ({ st with iX := x2 }, [])
    | .m =>
        let r := handleM st.music
        ({ st with music := r.1 }, [r.2])
    | .q | .escape => ({ st with quit := true }, [])
    | .other => (st, [])

/-- The state part of `stepEvent`. -/
def stepState (st : GameState) (e : Event) : GameState :=
  (stepEvent st e).1

/-- Draining a batch of pending events, the inner
`while (SDL_PollEvent(&e))` loop (main.cpp:256-329), with the trace of
music library calls made along the way. -/
def drainEvents (st : GameState) : List Event → GameState × List Act
  | [] => (st, [])
  | e :: evs =>
      let p := stepEvent st e
      let rest := drainEvents p.1 evs
      (rest.1, p.2 ++ rest.2)

/-- The state reached after processing a sequence of events. -/
def processEvents (st : GameState) (evs : List Event) : GameState :=
  (drainEvents st evs).1

/-- One iteration of the outer `while (!quit)` loop (main.cpp:255-335):
drain all pending events, then clear, blit the sprite clip, blit the
text, and present. -/
def loopIter (st : GameState) (evs : List Event) : GameState × List Act :=
  let p := drainEvents st evs
  (p.1, p.2 ++ [Act.renderClear, Act.blitSprite, Act.blitText, Act.present])

/-- The outer `while (!quit)` loop (main.cpp:255-335), run on a list of
event batches: each iteration receives the batch of events pending at
that iteration.  The loop condition is checked before each iteration;
when the batches are exhausted the run is cut off (the real loop would
keep iterating on empty batches). -/
def runLoop : GameState → List (List Event) → GameState × List Act
  | st, [] => (st, [])
  | st, b :: bs =>
      if st.quit then (st, [])
      else
        let p := loopIter st b
        let rest := runLoop p.1 bs
        (rest.1, p.2 ++ rest.2)

/-- The loop's initial state (main.cpp:228-229, 242, 251, 254):
sprite centered at `(SCREEN_WIDTH/2 - iW/2, SCREEN_HEIGHT/2 - iH/2)`,
clip 0, `quit = false`; `music = playing` because
`Mix_PlayMusic(song, -1)` was called at main.cpp:251, just before the
loop is entered. -/
def initLoopState : GameState :=
  { iX := SCREEN_WIDTH / 2 - iW / 2
  , iY := SCREEN_HEIGHT / 2 - iH / 2
  , useClip := 0
  , quit := false
  , music := .playing }

/-- An SDL_Rect: x, y, width, height. -/
structure SDLRect where
  x : Int
  y : Int
  w : Int
  h : Int
deriving DecidableEq, Repr

/-- The clip table built by the `for` loop at main.cpp:235-240:
`clips[i] = (i/2 * iW, i%2 * iH, iW, iH)` for `i = 0..3`. -/
def clips : List SDLRect :=
  (List.range 4).map fun i =>
    { x := (i : Int) / 2 * iW
    , y := (i : Int) % 2 * iH
    , w := iW
    , h := iH }

/-- A texture's native dimensions, as reported by `SDL_QueryTexture`. -/
structure Texture where
  w : Int
  h : Int
deriving DecidableEq, Repr

/-- The arguments of the `SDL_RenderCopy(ren, tex, clip, &dst)` call
ultimately performed by the blit helper. -/
structure RenderCopyCall where
  tex : Texture
  srcClip : Option SDLRect
  dst : SDLRect
deriving DecidableEq, Repr

/-- The full form of the blit helper (main.cpp:78-83): forwards the
texture, clip, and destination rectangle to `SDL_RenderCopy` unchanged. -/
def renderTextureFull (tex : Texture) (dst : SDLRect) (clip : Option SDLRect) :
    RenderCopyCall :=
  { tex := tex, srcClip := clip, dst := dst }

/-- The position form of the blit helper (main.cpp:97-112): builds a
destination rectangle at `(x, y)` whose width/height come from the clip
when one is given, and otherwise from `SDL_QueryTexture` on the texture;
then delegates to the full form. -/
def renderTexturePos (tex : Texture) (x y : Int) (clip : Option SDLRect) :
    RenderCopyCall :=
  let dest : SDLRect :=
    match clip with
    | some c => { x := x, y := y, w := c.w, h := c.h }
    | none => { x := x, y := y, w := tex.w, h := tex.h }
  renderTextureFull tex dest clip

/-- The success/failure outcome of each fallible library call in `main`:
`SDL_Init`, `Mix_OpenAudio`, `IMG_Init`, `TTF_Init`, `SDL_CreateWindow`,
`SDL_CreateRenderer`, `TTF_OpenFont`, `renderText`, `loadTexture`,
`loadMusic`. -/
structure Config where
  sdlInitOk : Bool
  mixOpenOk : Bool
  imgInitOk : Bool
  ttfInitOk : Bool
  windowOk : Bool
  rendererOk : Bool
  fontOk : Bool
  textOk : Bool
  imageOk : Bool
  musicOk : Bool
deriving DecidableEq, Repr

/-- All ten fallible startup calls succeed. -/
def allOk (cfg : Config) : Bool :=
  cfg.sdlInitOk && cfg.mixOpenOk && cfg.imgInitOk && cfg.ttfInitOk &&
  cfg.windowOk && cfg.rendererOk && cfg.fontOk && cfg.textOk &&
  cfg.imageOk && cfg.musicOk

/-- The trace of `quitAll()` (main.cpp:23-29): `Mix_Quit(); IMG_Quit();
TTF_Quit(); SDL_Quit();`, in exactly that order. -/
def quitAllActs : List Act :=
  [Act.subsysQuit .mix, Act.subsysQuit .img, Act.subsysQuit .ttf,
   Act.subsysQuit .sdl]

/-- The four successful subsystem initializations, in program order
(main.cpp:150-174): SDL, mixer, image, ttf. -/
def initActs : List Act :=
  [Act.subsysInit .sdl, Act.subsysInit .mix, Act.subsysInit .img,
   Act.subsysInit .ttf]

/-- Control flow of `main` (main.cpp:148-341), as a function from the
outcome of each fallible call and the event batches to the exit status
and the trace of library calls.  Each `cleanup(...)` call is modelled
from the spec (the header `include/cleanup.h` is not part of `src/`):
it releases its handle arguments left to right, skipping null handles.
The exit status is `none` when the loop runs out of batches with `quit`
still false (the real program would keep looping). -/
def mainRun (cfg : Config) (bs : List (List Event)) : Option Nat × List Act :=
  if cfg.sdlInitOk = false then (some 1, [])
  else if cfg.mixOpenOk = false then
    (some 1, [Act.subsysInit .sdl] ++ quitAllActs)
  else if cfg.imgInitOk = false then
    (some 1, [Act.subsysInit .sdl, Act.subsysInit .mix] ++ quitAllActs)
  else if cfg.ttfInitOk = false then
    (some 1, [Act.subsysInit .sdl, Act.subsysInit .mix, Act.subsysInit .img]
      ++ quitAllActs)
  else if cfg.windowOk = false then (some 1, initActs ++ quitAllActs)
  else if cfg.rendererOk = false then
    (some 1, initActs ++ [Act.acquire .window, Act.release .window]
      ++ quitAllActs)
  else if cfg.fontOk = false then
    (some 1, initActs ++ [Act.acquire .window, Act.acquire .renderer,
      Act.release .renderer, Act.release .window] ++ quitAllActs)
  else
    let acqs := initActs ++ [Act.acquire .window, Act.acquire .renderer,
      Act.acquire .font]
      ++ (if cfg.textOk then [Act.acquire .text] else [])
      ++ (if cfg.imageOk then [Act.acquire .image] else [])
    if cfg.imageOk = false ∨ cfg.textOk = false then
      (some 1, acqs ++ [Act.release .font]
        ++ (if cfg.imageOk then [Act.release .image] else [])
        ++ (if cfg.textOk then [Act.release .text] else [])
        ++ [Act.release .renderer, Act.release .window] ++ quitAllActs)
    else if cfg.musicOk = false then
      (some 1, acqs ++ [Act.release .font, Act.release .image,
        Act.release .text, Act.release .renderer, Act.release .window]
        ++ quitAllActs)
    else
      let lr := runLoop initLoopState bs
      if lr.1.quit then
        (some 0, acqs ++ [Act.acquire .music, Act.playMusic (-1)] ++ lr.2
          ++ [Act.haltMusic, Act.release .music, Act.release .font,
              Act.release .image, Act.release .renderer, Act.release .window]
          ++ quitAllActs)
      else
        (none, acqs ++ [Act.acquire .music, Act.playMusic (-1)] ++ lr.2)

/-- Acts that the event loop itself can emit: music channel calls and
the per-frame render calls. -/
def isLoopAct : Act → Bool
  | .playMusic _ => true
  | .pauseMusic => true
  | .resumeMusic => true
  | .renderClear => true
  | .blitSprite => true
  | .blitText => true
  | .present => true
  | _ => false

/-- Resource-release acts. -/
def isRelease : Act → Bool
  | .release _ => true
  | _ => false

/-- Subsystem-shutdown acts. -/
def isSubsysQuit : Act → Bool
  | .subsysQuit _ => true
  | _ => false

/-- Rendering acts: clear, the two blits, present. -/
def isRenderAct : Act → Bool
  | .renderClear => true
  | .blitSprite => true
  | .blitText => true
  | .present => true
  | _ => false

/-- The single global order in which `main`'s cleanup call sites release
resources: music, font, image, text, renderer, window. -/
def fixedReleaseOrder : List Act :=
  [Act.release .music, Act.release .font, Act.release .image,
   Act.release .text, Act.release .renderer, Act.release .window]

/-- The sprite-position bounds the spec claims invariant:
x in [0, 632] and y in [0, 764]. -/
def InBounds (st : GameState) : Prop :=
  0 ≤ st.iX ∧ st.iX ≤ 632 ∧ 0 ≤ st.iY ∧ st.iY ≤ 764

/-- The configuration in which every startup call succeeds. -/
def allOkConfig : Config :=
  { sdlInitOk := true, mixOpenOk := true, imgInitOk := true,
    ttfInitOk := true, windowOk := true, rendererOk := true,
    fontOk := true, textOk := true, imageOk := true, musicOk := true }

/-! ### Helper lemmas -/

/-- Unfolding of `processEvents` on a cons. -/
theorem processEvents_cons (st : GameState) (e : Event) (evs : List Event) :
    processEvents st (e :: evs) = processEvents (stepState st e) evs := rfl

/-- Every single event step keeps the sprite inside the claimed bounds. -/
theorem stepState_inBounds (st : GameState) (e : Event) (h : InBounds st) :
    InBounds (stepState st e) := by
  obtain ⟨h1, h2, h3, h4⟩ := h
  cases e with
  | quitEv => exact ⟨h1, h2, h3, h4⟩
  | otherEv => exact ⟨h1, h2, h3, h4⟩
  | keyDown k =>
    cases k <;>
      simp only [stepState, stepEvent, InBounds, SCREEN_WIDTH, SCREEN_HEIGHT,
        iW, iH, xVel, yVel] <;>
      (try split_ifs) <;>
      omega

/-- Processing any event sequence keeps the sprite inside the bounds. -/
theorem processEvents_inBounds (evs : List Event) :
    ∀ st : GameState, InBounds st → InBounds (processEvents st evs) := by
  induction evs with
  | nil => intro st h; exact h
  | cons e evs ih =>
      intro st h
      rw [processEvents_cons]
      exact ih _ (stepState_inBounds st e h)

/-- Every single event step keeps the clip index below 4. -/
theorem stepState_clip_lt (st : GameState) (e : Event) (h : st.useClip < 4) :
    (stepState st e).useClip < 4 := by
  cases e with
  | quitEv => exact h
  | otherEv => exact h
  | keyDown k =>
    cases k <;>
      simp only [stepState, stepEvent] <;>
      omega

/-- Processing any event sequence keeps the clip index below 4. -/
theorem processEvents_clip_lt (evs : List Event) :
    ∀ st : GameState, st.useClip < 4 → (processEvents st evs).useClip < 4 := by
  induction evs with
  | nil => intro st h; exact h
  | cons e evs ih =>
      intro st h
      rw [processEvents_cons]
      exact ih _ (stepState_clip_lt st e h)

/-- Any event other than an M key-down leaves the music state unchanged. -/
theorem stepState_music_of_ne_m (st : GameState) (e : Event)
    (h : e ≠ .keyDown .m) : (stepState st e).music = st.music := by
  cases e with
  | quitEv => rfl
  | otherEv => rfl
  | keyDown k => cases k <;> first | rfl | exact absurd rfl h

/-- A sequence of events containing no M key-down leaves the music state
unchanged. -/
theorem processEvents_music_of_no_m (evs : List Event) :
    ∀ st : GameState, (∀ e ∈ evs, e ≠ .keyDown .m) →
      (processEvents st evs).music = st.music := by
  induction evs with
  | nil => intro st _; rfl
  | cons e evs ih =>
      intro st h
      rw [processEvents_cons]
      rw [ih _ fun x hx => h x (List.mem_cons_of_mem e hx)]
      exact stepState_music_of_ne_m st e (h e (List.mem_cons_self e evs))

/-- The music calls emitted by one event step are loop acts. -/
theorem stepEvent_acts_isLoopAct (st : GameState) (e : Event) :
    ∀ a ∈ (stepEvent st e).2, isLoopAct a = true := by
  cases e with
  | quitEv => intro a ha; simp [stepEvent] at ha
  | otherEv => intro a ha; simp [stepEvent] at ha
  | keyDown k =>
    cases k <;> intro a ha <;>
      simp only [stepEvent, List.mem_singleton, List.not_mem_nil] at ha
    subst ha
    cases h : st.music <;>
      simp [handleM, Mix_PlayingMusic, Mix_PausedMusic, isLoopAct, h]

/-- The acts emitted while draining a batch of events are loop acts. -/
theorem drainEvents_acts_isLoopAct (evs : List Event) :
    ∀ st : GameState, ∀ a ∈ (drainEvents st evs).2, isLoopAct a = true := by
  induction evs with
  | nil => intro st a ha; simp [drainEvents] at ha
  | cons e evs ih =>
      intro st a ha
      simp only [drainEvents, List.mem_append] at ha
      rcases ha with ha | ha
      · exact stepEvent_acts_isLoopAct st e a ha
      · exact ih _ a ha

/-- Every act in the event loop's trace is a loop act: a music call or
a render call.  In particular the loop acquires nothing, releases
nothing, and shuts down no subsystem. -/
theorem runLoop_acts_isLoopAct (bs : List (List Event)) :
    ∀ st : GameState, ∀ a ∈ (runLoop st bs).2, isLoopAct a = true := by
  induction bs with
  | nil => intro st a ha; simp [runLoop] at ha
  | cons b bs ih =>
      intro st a ha
      simp only [runLoop] at ha
      split at ha
      · simp at ha
      · simp only [loopIter, List.append_assoc, List.mem_append,
          List.mem_cons, List.not_mem_nil, or_false] at ha
        rcases ha with ha | ha | ha
        · exact drainEvents_acts_isLoopAct b st a ha
        · rcases ha with rfl | rfl | rfl | rfl <;> rfl
        · exact ih _ a ha

/-- A non-loop act never occurs in the loop's trace. -/
theorem runLoop_count_eq_zero (st : GameState) (bs : List (List Event))
    (a : Act) (h : isLoopAct a = false) : (runLoop st bs).2.count a = 0 := by
  rw [List.count_eq_zero]
  intro hmem
  rw [runLoop_acts_isLoopAct bs st a hmem] at h
  exact Bool.noConfusion h

/-- Filtering the loop's trace by a predicate false on loop acts gives
the empty list. -/
theorem runLoop_filter_eq_nil (st : GameState) (bs : List (List Event))
    (p : Act → Bool) (hp : ∀ a, isLoopAct a = true → p a = false) :
    (runLoop st bs).2.filter p = [] := by
  rw [List.filter_eq_nil_iff]
  intro a ha
  rw [hp a (runLoop_acts_isLoopAct bs st a ha)]
  exact Bool.false_ne_true

/-- Loop acts are not releases. -/
theorem isLoopAct_isRelease_false (a : Act) (h : isLoopAct a = true) :
    isRelease a = false := by
  cases a <;> simp_all [isLoopAct, isRelease]

/-- Loop acts are not subsystem shutdowns. -/
theorem isLoopAct_isSubsysQuit_false (a : Act) (h : isLoopAct a = true) :
    isSubsysQuit a = false := by
  cases a <;> simp_all [isLoopAct, isSubsysQuit]

/-- The loop trace contains no releases. -/
theorem runLoop_filter_isRelease (st : GameState) (bs : List (List Event)) :
    (runLoop st bs).2.filter isRelease = [] :=
  runLoop_filter_eq_nil st bs isRelease isLoopAct_isRelease_false

/-- The loop trace contains no subsystem shutdowns. -/
theorem runLoop_filter_isSubsysQuit (st : GameState)
    (bs : List (List Event)) :
    (runLoop st bs).2.filter isSubsysQuit = [] :=
  runLoop_filter_eq_nil st bs isSubsysQuit isLoopAct_isSubsysQuit_false

/-- The loop trace contains no release of any resource. -/
theorem runLoop_count_release (st : GameState) (bs : List (List Event))
    (r : Res) : (runLoop st bs).2.count (Act.release r) = 0 :=
  runLoop_count_eq_zero st bs (Act.release r) rfl

/-- The loop trace contains no acquisition of any resource. -/
theorem runLoop_count_acquire (st : GameState) (bs : List (List Event))
    (r : Res) : (runLoop st bs).2.count (Act.acquire r) = 0 :=
  runLoop_count_eq_zero st bs (Act.acquire r) rfl

/-! ### Claims -/

/-- C1: For every finite sequence of events processed by the
Input/Update Loop, starting from the initial centered position, the
sprite position stays within bounds in every reachable state:
0 ≤ x ≤ 632 and 0 ≤ y ≤ 764 (screen 732×864 minus the 100×100 sprite). -/
theorem C1_position_always_in_bounds (evs : List Event) :
    0 ≤ (processEvents initLoopState evs).iX ∧
    (processEvents initLoopState evs).iX ≤ 632 ∧
    0 ≤ (processEvents initLoopState evs).iY ∧
    (processEvents initLoopState evs).iY ≤ 764 :=
  processEvents_inBounds evs initLoopState
    ⟨by decide, by decide, by decide, by decide⟩

/-- C3: Processing a window-close event or a Q/Escape key-down sets the
quit flag to true; the flag is monotone (once true it is never reset, so
it transitions false→true exactly once); and once the loop's condition
detects `quit = true` the loop performs no further iterations, hence no
further clear, blit, or present. -/
theorem C3_quit_detection_stops_rendering :
    (∀ st : GameState,
        (stepState st .quitEv).quit = true ∧
        (stepState st (.keyDown .q)).quit = true ∧
        (stepState st (.keyDown .escape)).quit = true) ∧
    (∀ (st : GameState) (e : Event), st.quit = true →
        (stepState st e).quit = true) ∧
    (∀ (st : GameState) (bs : List (List Event)), st.quit = true →
        runLoop st bs = (st, [])) := by
  refine ⟨fun st => ⟨rfl, rfl, rfl⟩, ?_, ?_⟩
  · intro st e h
    cases e with
    | quitEv => rfl
    | otherEv => exact h
    | keyDown k => cases k <;> first | rfl | exact h
  · intro st bs h
    cases bs with
    | nil => rfl
    | cons b bs => simp [runLoop, h]

/-- Witness for C3 at a concrete quitting state. -/
theorem C3_quit_detection_stops_rendering_witness :
    (stepState { initLoopState with quit := true } .otherEv).quit = true ∧
    runLoop { initLoopState with quit := true } [[Event.keyDown .up]] =
      ({ initLoopState with quit := true }, []) :=
  ⟨C3_quit_detection_stops_rendering.2.1 { initLoopState with quit := true }
     .otherEv rfl,
   C3_quit_detection_stops_rendering.2.2 { initLoopState with quit := true }
     [[Event.keyDown .up]] rfl⟩

/-- C4: An M key-down while music is stopped starts the track looping
indefinitely (`Mix_PlayMusic(song, -1)`) and the state becomes playing;
while playing (not paused) it pauses; while paused it resumes; and the
track-starting call is issued only from the stopped state, so M never
restarts the track once it is playing or paused. -/
theorem C4_music_toggle :
    handleM .stopped = (.playing, .playMusic (-1)) ∧
    handleM .playing = (.paused, .pauseMusic) ∧
    handleM .paused = (.playing, .resumeMusic) ∧
    ∀ ms : MusicState, (handleM ms).2 = .playMusic (-1) ↔ ms = .stopped := by
  refine ⟨by decide, by decide, by decide, ?_⟩
  intro ms
  cases ms <;> simp [handleM, Mix_PlayingMusic, Mix_PausedMusic]

/-- C6: At every position within the invariant bounds (which contain all
reachable positions), the before/after check structure of the movement
branches is equivalent to an effective clamp: Up/W sets y to
max(0, y − 10), Down/S sets y to min(764, y + 10), Left/A sets x to
max(0, x − 10), Right/D sets x to min(632, x + 10). -/
theorem C6_effective_clamp (st : GameState)
    (hx0 : 0 ≤ st.iX) (hx1 : st.iX ≤ 632)
    (hy0 : 0 ≤ st.iY) (hy1 : st.iY ≤ 764) :
    (stepState st (.keyDown .up)).iY = max 0 (st.iY - 10) ∧
    (stepState st (.keyDown .w)).iY = max 0 (st.iY - 10) ∧
    (stepState st (.keyDown .down)).iY = min 764 (st.iY + 10) ∧
    (stepState st (.keyDown .s)).iY = min 764 (st.iY + 10) ∧
    (stepState st (.keyDown .left)).iX = max 0 (st.iX - 10) ∧
    (stepState st (.keyDown .a)).iX = max 0 (st.iX - 10) ∧
    (stepState st (.keyDown .right)).iX = min 632 (st.iX + 10) ∧
    (stepState st (.keyDown .d)).iX = min 632 (st.iX + 10) := by
  refine ⟨?_, ?_, ?_, ?_, ?_, ?_, ?_, ?_⟩ <;>
    simp only [stepState, stepEvent, SCREEN_WIDTH, SCREEN_HEIGHT, iW, iH,
      xVel, yVel] <;>
    split_ifs <;>
    omega

/-- Witness for C6 at the initial centered position (x = 316, y = 382). -/
theorem C6_effective_clamp_witness :
    (stepState initLoopState (.keyDown .up)).iY = 372 ∧
    (stepState initLoopState (.keyDown .right)).iX = 326 :=
  ⟨((C6_effective_clamp initLoopState (by decide) (by decide) (by decide)
      (by decide)).1).trans (by decide),
   ((C6_effective_clamp initLoopState (by decide) (by decide) (by decide)
      (by decide)).2.2.2.2.2.2.1).trans (by decide)⟩

/-- C7: A key-down of digit or numpad 1–4 sets the clip index to 0–3
respectively, regardless of the prior state; the clip index is in
{0,1,2,3} in every reachable state; and each index i selects the
100×100 sub-rectangle at position (i/2·100, i%2·100). -/
theorem C7_clip_selection :
    (∀ st : GameState,
       (stepState st (.keyDown .k1)).useClip = 0 ∧
       (stepState st (.keyDown .kp1)).useClip = 0 ∧
       (stepState st (.keyDown .k2)).useClip = 1 ∧
       (stepState st (.keyDown .kp2)).useClip = 1 ∧
       (stepState st (.keyDown .k3)).useClip = 2 ∧
       (stepState st (.keyDown .kp3)).useClip = 2 ∧
       (stepState st (.keyDown .k4)).useClip = 3 ∧
       (stepState st (.keyDown .kp4)).useClip = 3) ∧
    (∀ evs : List Event, (processEvents initLoopState evs).useClip < 4) ∧
    (∀ i : Nat, i < 4 →
       clips.getD i ⟨0, 0, 0, 0⟩ =
         { x := (i : Int) / 2 * 100, y := (i : Int) % 2 * 100,
           w := 100, h := 100 }) := by
  refine ⟨fun st => ⟨rfl, rfl, rfl, rfl, rfl, rfl, rfl, rfl⟩, ?_, ?_⟩
  · intro evs
    exact processEvents_clip_lt evs initLoopState (by decide)
  · intro i hi
    interval_cases i <;> decide

/-- Witness for C7: pressing 3 selects the sub-rectangle at (100, 0). -/
theorem C7_clip_selection_witness :
    clips.getD 2 ⟨0, 0, 0, 0⟩ = { x := 100, y := 0, w := 100, h := 100 } :=
  (C7_clip_selection.2.2 2 (by decide)).trans (by decide)

/-- C8: The position form of the Blit Helper builds a destination
rectangle at (x, y) sized to the clip's width/height when a clip is
given, and otherwise to the texture's native width/height; it delegates
to the full form with that rectangle, so destination size always equals
source size (no scaling).  A stub 200×150 texture with no clip yields
destination w = 200, h = 150. -/
theorem C8_blit_position_form :
    (∀ (tex : Texture) (x y : Int) (c : SDLRect),
       (renderTexturePos tex x y (some c)).dst =
         { x := x, y := y, w := c.w, h := c.h } ∧
       renderTexturePos tex x y (some c) =
         renderTextureFull tex { x := x, y := y, w := c.w, h := c.h }
           (some c)) ∧
    (∀ (tex : Texture) (x y : Int),
       (renderTexturePos tex x y none).dst =
         { x := x, y := y, w := tex.w, h := tex.h } ∧
       renderTexturePos tex x y none =
         renderTextureFull tex { x := x, y := y, w := tex.w, h := tex.h }
           none) ∧
    (renderTexturePos { w := 200, h := 150 } 5 7 none).dst.w = 200 ∧
    (renderTexturePos { w := 200, h := 150 } 5 7 none).dst.h = 150 :=
  ⟨fun _ _ _ _ => ⟨rfl, rfl⟩, fun _ _ _ => ⟨rfl, rfl⟩, rfl, rfl⟩

/-- C9: After successful startup `main` unconditionally starts the music
track looping indefinitely (`Mix_PlayMusic(song, -1)`, main.cpp:251)
before the first event-loop iteration, so the loop starts with the music
playing; and as long as no M key-down has been processed the music state
remains playing — at the first M key-down it is playing, never stopped. -/
theorem C9_music_playing_at_first_m :
    initLoopState.music = .playing ∧
    (∀ (cfg : Config) (bs : List (List Event)), allOk cfg = true →
       Act.playMusic (-1) ∈ (mainRun cfg bs).2) ∧
    (∀ evs : List Event, (∀ e ∈ evs, e ≠ .keyDown .m) →
       (processEvents initLoopState evs).music = .playing ∧
       (processEvents initLoopState evs).music ≠ .stopped) := by
  refine ⟨rfl, ?_, ?_⟩
  · intro cfg bs h
    simp only [allOk, Bool.and_eq_true] at h
    obtain ⟨⟨⟨⟨⟨⟨⟨⟨⟨h1, h2⟩, h3⟩, h4⟩, h5⟩, h6⟩, h7⟩, h8⟩, h9⟩, h10⟩ := h
    simp only [mainRun, h1, h2, h3, h4, h5, h6, h7, h8, h9, h10]
    norm_num
    split <;> simp
  · intro evs h
    have hm := processEvents_music_of_no_m evs initLoopState h
    rw [hm]
    exact ⟨rfl, fun hc => MusicState.noConfusion hc⟩

/-- Witness for C9: the all-success startup plays the track, and a
non-M event sequence leaves the music playing. -/
theorem C9_music_playing_at_first_m_witness :
    Act.playMusic (-1) ∈ (mainRun allOkConfig [[Event.quitEv]]).2 ∧
    (processEvents initLoopState [Event.keyDown .up]).music = .playing :=
  ⟨C9_music_playing_at_first_m.2.1 allOkConfig [[Event.quitEv]] (by decide),
   (C9_music_playing_at_first_m.2.2 [Event.keyDown .up] (by decide)).1⟩

/-- C10: Every event mutates at most its designated state component:
digit/numpad 1–4 change only the clip index; Up/W and Down/S change
only y; Left/A and Right/D change only x; M changes only the music
state; Q/Escape and window-close change only the quit flag; all other
events change nothing. -/
theorem C10_frame_conditions (st : GameState) :
    ((stepState st .quitEv).iX = st.iX ∧ (stepState st .quitEv).iY = st.iY ∧
     (stepState st .quitEv).useClip = st.useClip ∧
     (stepState st .quitEv).music = st.music) ∧
    stepState st .otherEv = st ∧
    stepState st (.keyDown .other) = st ∧
    (∀ k ∈ [Key.k1, .kp1, .k2, .kp2, .k3, .kp3, .k4, .kp4],
       (stepState st (.keyDown k)).iX = st.iX ∧
       (stepState st (.keyDown k)).iY = st.iY ∧
       (stepState st (.keyDown k)).quit = st.quit ∧
       (stepState st (.keyDown k)).music = st.music) ∧
    (∀ k ∈ [Key.up, .w, .down, .s],
       (stepState st (.keyDown k)).iX = st.iX ∧
       (stepState st (.keyDown k)).useClip = st.useClip ∧
       (stepState st (.keyDown k)).quit = st.quit ∧
       (stepState st (.keyDown k)).music = st.music) ∧
    (∀ k ∈ [Key.left, .a, .right, .d],
       (stepState st (.keyDown k)).iY = st.iY ∧
       (stepState st (.keyDown k)).useClip = st.useClip ∧
       (stepState st (.keyDown k)).quit = st.quit ∧
       (stepState st (.keyDown k)).music = st.music) ∧
    ((stepState st (.keyDown .m)).iX = st.iX ∧
     (stepState st (.keyDown .m)).iY = st.iY ∧
     (stepState st (.keyDown .m)).useClip = st.useClip ∧
     (stepState st (.keyDown .m)).quit = st.quit) ∧
    (∀ k ∈ [Key.q, .escape],
       (stepState st (.keyDown k)).iX = st.iX ∧
       (stepState st (.keyDown k)).iY = st.iY ∧
       (stepState st (.keyDown k)).useClip = st.useClip ∧
       (stepState st (.keyDown k)).music = st.music) := by
  refine ⟨⟨rfl, rfl, rfl, rfl⟩, rfl, rfl, ?_, ?_, ?_,
    ⟨rfl, rfl, rfl, rfl⟩, ?_⟩ <;>
  · intro k hk
    fin_cases hk <;> exact ⟨rfl, rfl, rfl, rfl⟩

/-- Witness for C10 at the initial state: a clip key leaves the music
state alone, a movement key leaves the clip index alone. -/
theorem C10_frame_conditions_witness :
    (stepState initLoopState (.keyDown .k3)).music = initLoopState.music ∧
    (stepState initLoopState (.keyDown .up)).useClip =
      initLoopState.useClip :=
  ⟨((C10_frame_conditions initLoopState).2.2.2.1 .k3 (by decide)).2.2.2,
   ((C10_frame_conditions initLoopState).2.2.2.2.1 .up (by decide)).2.1⟩

/-- C5: The process exits with status 0 on clean shutdown via quit and
with status 1 on any initialization or asset-load failure; in
particular, if the image asset fails to load, the process exits with
status 1 before entering the event loop (its trace contains no clear,
blit, or present) and the window is no longer open (acquired once and
released once). -/
theorem C5_exit_codes (cfg : Config) (bs : List (List Event)) :
    (allOk cfg = true → (runLoop initLoopState bs).1.quit = true →
       (mainRun cfg bs).1 = some 0) ∧
    (allOk cfg = false → (mainRun cfg bs).1 = some 1) ∧
    (cfg.sdlInitOk = true → cfg.mixOpenOk = true → cfg.imgInitOk = true →
     cfg.ttfInitOk = true → cfg.windowOk = true → cfg.rendererOk = true →
     cfg.fontOk = true → cfg.imageOk = false →
       (mainRun cfg bs).1 = some 1 ∧
       (mainRun cfg bs).2.filter isRenderAct = [] ∧
       (mainRun cfg bs).2.count (Act.acquire .window) = 1 ∧
       (mainRun cfg bs).2.count (Act.release .window) = 1) := by
  refine ⟨?_, ?_, ?_⟩
  · intro h hq
    simp only [allOk, Bool.and_eq_true] at h
    obtain ⟨⟨⟨⟨⟨⟨⟨⟨⟨h1, h2⟩, h3⟩, h4⟩, h5⟩, h6⟩, h7⟩, h8⟩, h9⟩, h10⟩ := h
    simp [mainRun, h1, h2, h3, h4, h5, h6, h7, h8, h9, h10, hq]
  · intro h
    by_cases c1 : cfg.sdlInitOk = false
    · simp [mainRun, c1]
    by_cases c2 : cfg.mixOpenOk = false
    · simp [mainRun, c1, c2]
    by_cases c3 : cfg.imgInitOk = false
    · simp [mainRun, c1, c2, c3]
    by_cases c4 : cfg.ttfInitOk = false
    · simp [mainRun, c1, c2, c3, c4]
    by_cases c5 : cfg.windowOk = false
    · simp [mainRun, c1, c2, c3, c4, c5]
    by_cases c6 : cfg.rendererOk = false
    · simp [mainRun, c1, c2, c3, c4, c5, c6]
    by_cases c7 : cfg.fontOk = false
    · simp [mainRun, c1, c2, c3, c4, c5, c6, c7]
    by_cases c8 : cfg.imageOk = false ∨ cfg.textOk = false
    · simp [mainRun, c1, c2, c3, c4, c5, c6, c7, c8]
    by_cases c9 : cfg.musicOk = false
    · simp [mainRun, c1, c2, c3, c4, c5, c6, c7, c8, c9]
    simp only [Bool.not_eq_false] at c1 c2 c3 c4 c5 c6 c7 c9
    simp only [not_or, Bool.not_eq_false] at c8
    simp [allOk, c1, c2, c3, c4, c5, c6, c7, c8.1, c8.2, c9] at h
  · intro h1 h2 h3 h4 h5 h6 h7 h8
    cases h9 : cfg.textOk <;>
      simp [mainRun, h1, h2, h3, h4, h5, h6, h7, h8, h9, initActs,
        quitAllActs, isRenderAct]

/-- Witness for C5 at concrete configurations: all-success with a quit
event exits 0; a music-load failure exits 1; an image-load failure
exits 1. -/
theorem C5_exit_codes_witness :
    (mainRun allOkConfig [[Event.quitEv]]).1 = some 0 ∧
    (mainRun { allOkConfig with musicOk := false } [[Event.quitEv]]).1 =
      some 1 ∧
    (mainRun { allOkConfig with imageOk := false } [[Event.quitEv]]).1 =
      some 1 :=
  ⟨(C5_exit_codes allOkConfig [[Event.quitEv]]).1 (by decide) (by decide),
   (C5_exit_codes { allOkConfig with musicOk := false } [[Event.quitEv]]).2.1
     (by decide),
   ((C5_exit_codes { allOkConfig with imageOk := false } [[Event.quitEv]]).2.2
     rfl rfl rfl rfl rfl rfl rfl rfl).1⟩

/-- C2 counterexample: on the normal quit path (every startup call
succeeds, one quit event) the text texture is acquired once but never
released — contradicting "every acquired resource handle is released
exactly once on every exit path" — and the four subsystems are shut
down in the order mixer, image, ttf, core (the order of `quitAll()`),
which differs from the reverse initialization order ttf, image, mixer,
core. -/
theorem C2_counterexample :
    (mainRun allOkConfig [[Event.quitEv]]).2.count (Act.acquire .text) = 1 ∧
    (mainRun allOkConfig [[Event.quitEv]]).2.count (Act.release .text) = 0 ∧
    (mainRun allOkConfig [[Event.quitEv]]).2.filter isSubsysQuit =
      [Act.subsysQuit .mix, Act.subsysQuit .img, Act.subsysQuit .ttf,
       Act.subsysQuit .sdl] ∧
    (mainRun allOkConfig [[Event.quitEv]]).2.filter isSubsysQuit ≠
      [Act.subsysQuit .ttf, Act.subsysQuit .img, Act.subsysQuit .mix,
       Act.subsysQuit .sdl] := by
  refine ⟨by decide, by decide, by decide, by decide⟩

set_option maxHeartbeats 1600000 in
/-- C2 (amended): On every exit path the releases performed occur in the
single global order music, font, image, text, renderer, window — which
is not the reverse of the acquisition order window, renderer, font,
text, image, music — and the subsystem shutdowns always follow
`quitAll()`'s fixed order mixer, image, ttf, core rather than reverse
initialization order; on every failure exit each resource is released
exactly as many times as it was acquired; on the normal quit exit every
resource except the text texture is acquired and released exactly once,
while the text texture is acquired once and never released. -/
theorem C2_release_discipline (cfg : Config) (bs : List (List Event)) :
    List.Sublist ((mainRun cfg bs).2.filter isRelease) fixedReleaseOrder ∧
    List.Sublist ((mainRun cfg bs).2.filter isSubsysQuit) quitAllActs ∧
    ((mainRun cfg bs).1 = some 1 →
       ∀ r : Res, (mainRun cfg bs).2.count (Act.release r) =
         (mainRun cfg bs).2.count (Act.acquire r)) ∧
    ((mainRun cfg bs).1 = some 0 →
       (mainRun cfg bs).2.count (Act.acquire .text) = 1 ∧
       (mainRun cfg bs).2.count (Act.release .text) = 0 ∧
       ∀ r : Res, r ≠ .text →
         (mainRun cfg bs).2.count (Act.acquire r) = 1 ∧
         (mainRun cfg bs).2.count (Act.release r) = 1) ∧
    ((mainRun cfg bs).1.isSome = true →
       (mainRun cfg bs).2.filter isSubsysQuit =
         if cfg.sdlInitOk = true then quitAllActs else []) := by
  by_cases c1 : cfg.sdlInitOk = false
  · refine ⟨?_, ?_, ?_, ?_, ?_⟩ <;> simp [mainRun, c1]
  by_cases c2 : cfg.mixOpenOk = false
  · refine ⟨?_, ?_, ?_, ?_, ?_⟩ <;> simp [mainRun, c1, c2] <;> decide
  by_cases c3 : cfg.imgInitOk = false
  · refine ⟨?_, ?_, ?_, ?_, ?_⟩ <;> simp [mainRun, c1, c2, c3] <;> decide
  by_cases c4 : cfg.ttfInitOk = false
  · refine ⟨?_, ?_, ?_, ?_, ?_⟩ <;> simp [mainRun, c1, c2, c3, c4] <;> decide
  by_cases c5 : cfg.windowOk = false
  · refine ⟨?_, ?_, ?_, ?_, ?_⟩ <;> simp [mainRun, c1, c2, c3, c4, c5] <;>
      decide
  by_cases c6 : cfg.rendererOk = false
  · refine ⟨?_, ?_, ?_, ?_, ?_⟩ <;>
      simp [mainRun, c1, c2, c3, c4, c5, c6] <;> decide
  by_cases c7 : cfg.fontOk = false
  · refine ⟨?_, ?_, ?_, ?_, ?_⟩ <;>
      simp [mainRun, c1, c2, c3, c4, c5, c6, c7] <;> decide
  by_cases c8 : cfg.imageOk = false ∨ cfg.textOk = false
  · cases himg : cfg.imageOk <;> cases htext : cfg.textOk
    · refine ⟨?_, ?_, ?_, ?_, ?_⟩ <;>
        simp [mainRun, c1, c2, c3, c4, c5, c6, c7, himg, htext] <;> decide
    · refine ⟨?_, ?_, ?_, ?_, ?_⟩ <;>
        simp [mainRun, c1, c2, c3, c4, c5, c6, c7, himg, htext] <;> decide
    · refine ⟨?_, ?_, ?_, ?_, ?_⟩ <;>
        simp [mainRun, c1, c2, c3, c4, c5, c6, c7, himg, htext] <;> decide
    · rw [himg, htext] at c8
      simp at c8
  simp only [not_or, Bool.not_eq_false] at c8
  by_cases c9 : cfg.musicOk = false
  · refine ⟨?_, ?_, ?_, ?_, ?_⟩ <;>
      simp [mainRun, c1, c2, c3, c4, c5, c6, c7, c8.1, c8.2, c9] <;> decide
  cases hq : (runLoop initLoopState bs).1.quit <;>
    refine ⟨?_, ?_, ?_, ?_, ?_⟩ <;>
    simp [mainRun, c1, c2, c3, c4, c5, c6, c7, c8.1, c8.2, c9, hq,
      List.filter_append, List.count_append, List.count_cons,
      runLoop_filter_isRelease,
      runLoop_filter_isSubsysQuit, runLoop_count_acquire,
      runLoop_count_release, isRelease, isSubsysQuit, initActs,
      quitAllActs, fixedReleaseOrder]
  all_goals decide

/-- Witness for C2 (amended) at concrete inputs: on a music-load-failure
exit the font is released as often as acquired; on the normal quit exit
the font is acquired and released exactly once and the subsystem
shutdowns are exactly quitAll's fixed order. -/
theorem C2_release_discipline_witness :
    (mainRun { allOkConfig with musicOk := false } []).2.count
        (Act.release .font) =
      (mainRun { allOkConfig with musicOk := false } []).2.count
        (Act.acquire .font) ∧
    ((mainRun allOkConfig [[Event.quitEv]]).2.count (Act.acquire .font) = 1 ∧
     (mainRun allOkConfig [[Event.quitEv]]).2.count (Act.release .font) = 1) ∧
    (mainRun allOkConfig [[Event.quitEv]]).2.filter isSubsysQuit =
      quitAllActs :=
  ⟨(C2_release_discipline { allOkConfig with musicOk := false } []).2.2.1
      (by decide) Res.font,
   ((C2_release_discipline allOkConfig [[Event.quitEv]]).2.2.2.1
      (by decide)).2.2 Res.font (by decide),
   ((C2_release_discipline allOkConfig [[Event.quitEv]]).2.2.2.2
      (by decide)).trans (by decide)⟩

end SDLGame
